import Mathlib

/-!
Verification development for the `point-cloud-viewer` repository
(`src/App.jsx`): a browser point-cloud viewer that fetches point and
statistics JSON for named shapes, renders them with a manual orbit camera,
and shows the stats in a panel.

Shallow embedding notes:
* JavaScript numbers are modelled as rationals (`ℚ`); the claims settled
  here concern clamping, ordering of side effects, buffer layout and state
  (in)variance, none of which depend on floating-point rounding.
* `fetch(url).then(x => x.json())` is modelled as a `FetchResult`: the
  promise chain either rejects (network error or a body that is not valid
  JSON) or resolves to a parsed value.  A non-success HTTP status does NOT
  reject `fetch`, so a 404 with a JSON body resolves like any other body;
  for the points resource the parsed value may therefore be a non-array
  (`PointsBody.nonArray`), on which `rawPoints.flatMap` throws.
* React state setters, scene mutation and resource disposal are modelled
  by an explicit session state plus an effect trace listing the side
  effects of one `loadShape` invocation in program order.
* `Math.sin`, `Math.cos` and `Vector3.setLength` are irrational; the
  camera step takes them as function parameters, so every theorem about
  the camera holds for arbitrary interpretations of them.
-/

/-- A 3D coordinate record `{x, y, z}`. -/
structure Vec3q where
  x : ℚ
  y : ℚ
  z : ℚ
deriving DecidableEq, Repr

/-- One fetched point of a `shapes/{name}.points.json` body. -/
structure Point where
  x : ℚ
  y : ℚ
  z : ℚ
deriving DecidableEq, Repr

/-- A parsed `shapes/{name}.stats.json` body, with the fields the app
reads (`point_count`, `nearest_neighbor_avg`, `centroid`,
`bounding_box.dimensions`, `variance`). -/
structure StatsData where
  point_count : Nat
  nearest_neighbor_avg : ℚ
  centroid : Vec3q
  bbox_dimensions : Vec3q
  variance : Vec3q
deriving DecidableEq, Repr

/-- Result of `fetch(url).then(x => x.json())`: `err` when the fetch
rejects or the body is not valid JSON, `ok v` when a value parses.  A
non-success HTTP status alone does not produce `err`. -/
inductive FetchResult (α : Type) where
  | err : FetchResult α
  | ok (v : α) : FetchResult α
deriving DecidableEq, Repr

/-- A parsed points body: either a JSON array of points, or some other
JSON value (object, string, number, ...), on which `.flatMap` throws a
`TypeError`. -/
inductive PointsBody where
  | arr (pts : List Point) : PointsBody
  | nonArray : PointsBody
deriving DecidableEq, Repr

/-- The `THREE.Points` render object built by `loadShape`: a geometry
whose `position` attribute is the flat coordinate buffer, and a
`PointsMaterial` with color, size, transparency and opacity. -/
structure RenderObj where
  objId : Nat
  positions : List ℚ
  color : String
  size : ℚ
  transparent : Bool
  opacity : ℚ
deriving DecidableEq, Repr

/-- The React/scene session state touched by `loadShape`: the `shape`,
`stats`, `loading`, `error` state hooks, the scene's attached point-cloud
objects, and `pointsRef.current`. -/
structure SessionState where
  shape : String
  stats : Option StatsData
  loading : Bool
  error : Option String
  sceneObjs : List RenderObj
  pointsRef : Option RenderObj
deriving DecidableEq, Repr

/-- One observable side effect of a `loadShape` invocation, in program
order. `fetchPoints`/`fetchStats` mark the completion of the awaited
fetch-and-parse of the named URL. -/
inductive Effect where
  | setLoading (b : Bool) : Effect
  | setError (m : Option String) : Effect
  | fetchPoints (url : String) : Effect
  | fetchStats (url : String) : Effect
  | setStats (s : StatsData) : Effect
  | removeFromScene (objId : Nat) : Effect
  | disposeGeometry (objId : Nat) : Effect
  | disposeMaterial (objId : Nat) : Effect
  | constructObj (objId : Nat) : Effect
  | addToScene (objId : Nat) : Effect
  | setPointsRef (objId : Nat) : Effect
deriving DecidableEq, Repr

/-- Source `const SHAPES = [...]`: the fixed shape enumeration shown as
buttons. -/
def SHAPES : List String :=
  ["sphere", "torus", "plane", "helix", "cylinder", "cube", "octahedron"]

/-- Source `const COLORS = {...}`: the shape→color table (note it also carries
a `random` entry that is not in `SHAPES`). -/
def COLORS : List (String × String) :=
  [("sphere", "#00e5ff"),
   ("torus", "#ff6b6b"),
   ("plane", "#69ff47"),
   ("helix", "#ffd600"),
   ("cylinder", "#ff3d00"),
   ("cube", "#40c4ff"),
   ("random", "#f040f1"),
   ("octahedron", "#7c4dff")]

/-- Lookup `COLORS[shapeName]`: JavaScript property lookup on the color table. -/
def colorsLookup (name : String) : Option String :=
  List.lookup name COLORS

/-- Expression `COLORS[shapeName] || "#ffffff"`: the material color string, falling
back to white for a name with no table entry. -/
def colorFor (name : String) : String :=
  (colorsLookup name).getD "#ffffff"

/-- The fixed user-facing error message set in the `catch` block. -/
def errorMsg : String :=
  "Could not connect to backend. Make sure FastAPI is running on :8000"

/-- The URL of the points resource: `shapes/{name}.points.json`. -/
def urlPoints (name : String) : String :=
  "shapes/" ++ name ++ ".points.json"

/-- The URL of the stats resource: `shapes/{name}.stats.json`. -/
def urlStats (name : String) : String :=
  "shapes/" ++ name ++ ".stats.json"

/-- Expression `rawPoints.flatMap(p => [p.x, p.y, p.z])`: the flat position buffer,
three numbers per point, in point order. -/
def flattenPoints (pts : List Point) : List ℚ :=
  pts.flatMap (fun p => [p.x, p.y, p.z])

/-- The `catch`/`finally` tail of `loadShape`: set the fixed error
message, then clear the loading flag. -/
def catchFail (st : SessionState) (tr : List Effect) :
    SessionState × List Effect :=
  ({ st with error := some errorMsg, loading := false },
   tr ++ [Effect.setError (some errorMsg), Effect.setLoading false])

/-- The `THREE.Points` object a successful `loadShape` builds: flat
position buffer, table color (white fallback), `size: 0.012`,
`transparent: true`, `opacity: 0.5`. -/
def newObj (freshId : Nat) (shapeName : String) (pts : List Point) :
    RenderObj :=
  { objId := freshId, positions := flattenPoints pts,
    color := colorFor shapeName, size := 0.012,
    transparent := true, opacity := 0.5 }

/-- The two awaited fetch results consumed by one `loadShape` call. -/
structure LoadInput where
  pointsRes : FetchResult PointsBody
  statsRes : FetchResult StatsData
deriving DecidableEq, Repr

/-- Shallow embedding of `loadShape(shapeName)` (src/App.jsx:124-165).
`freshId` is the identity of the `THREE.Points` object a successful call
constructs.  Returns the post-call session state and the effect trace in
program order:
1. `setLoading(true)`; 2. `setError(null)`;
3. await points fetch+parse (throws into `catch` on `err`);
4. await stats fetch+parse (throws into `catch` on `err`);
5. `setStats(statsData)`;
6. if `pointsRef.current` exists: `scene.remove`, `geometry.dispose()`,
   `material.dispose()`;
7. `rawPoints.flatMap(...)` — throws into `catch` if the parsed points
   body is not an array;
8. build geometry/material/points, `scene.add`, record in `pointsRef`;
9. `finally`: `setLoading(false)`. -/
def loadShape (st0 : SessionState) (shapeName : String) (inp : LoadInput)
    (freshId : Nat) : SessionState × List Effect :=
  let st1 := { st0 with loading := true, error := none }
  let tr1 := [Effect.setLoading true, Effect.setError none,
              Effect.fetchPoints (urlPoints shapeName)]
  match inp.pointsRes with
  | .err => catchFail st1 tr1
  | .ok body =>
    let tr2 := tr1 ++ [Effect.fetchStats (urlStats shapeName)]
    match inp.statsRes with
    | .err => catchFail st1 tr2
    | .ok statsData =>
      let st2 := { st1 with stats := some statsData }
      let tr3 := tr2 ++ [Effect.setStats statsData]
      let cleaned :=
        match st2.pointsRef with
        | some old =>
          ({ st2 with sceneObjs := st2.sceneObjs.erase old },
           tr3 ++ [Effect.removeFromScene old.objId,
                   Effect.disposeGeometry old.objId,
                   Effect.disposeMaterial old.objId])
        | none => (st2, tr3)
      match body with
      | .nonArray => catchFail cleaned.1 cleaned.2
      | .arr pts =>
        let obj := newObj freshId shapeName pts
        ({ cleaned.1 with sceneObjs := cleaned.1.sceneObjs ++ [obj],
                          pointsRef := some obj, loading := false },
         cleaned.2 ++ [Effect.constructObj freshId,
                       Effect.addToScene freshId,
                       Effect.setPointsRef freshId,
                       Effect.setLoading false])

/-- The orbit-controller state captured by the scene-bootstrap closure:
`isDragging`, `prevMouse`, `spherical = {theta, phi}`, `radius`, plus the
camera's position and (when `lookAt` has been called) its look-at
target. -/
structure CamState where
  isDragging : Bool
  prevX : ℚ
  prevY : ℚ
  theta : ℚ
  phi : ℚ
  radius : ℚ
  pos : Vec3q
  look : Option Vec3q
deriving DecidableEq, Repr

/-- The value of `Math.PI` (modelled as a fixed rational; only its
coarse magnitude matters for the clamping claims). -/
def mathPI : ℚ := 3.141592653589793

/-- An input event consumed by the orbit-controller listeners. -/
inductive CamEvent where
  | mouseDown (x y : ℚ) : CamEvent
  | mouseUp : CamEvent
  | mouseMove (x y : ℚ) : CamEvent
  | wheel (deltaY : ℚ) : CamEvent
deriving DecidableEq, Repr

/-- Handler `onMouseDown`: start dragging and record the press position. -/
def onMouseDown (x y : ℚ) (s : CamState) : CamState :=
  { s with isDragging := true, prevX := x, prevY := y }

/-- Handler `onMouseUp`: stop dragging. -/
def onMouseUp (s : CamState) : CamState :=
  { s with isDragging := false }

/-- Handler `onMouseMove`: while dragging, convert the pointer delta into
azimuth/polar changes, clamp the polar angle, update `prevMouse`, set the
camera position from the spherical coordinates and aim at the origin.
`msin`/`mcos` interpret `Math.sin`/`Math.cos`. -/
def onMouseMove (msin mcos : ℚ → ℚ) (x y : ℚ) (s : CamState) : CamState :=
  if s.isDragging then
    let dx := x - s.prevX
    let dy := y - s.prevY
    let theta1 := s.theta - dx * 0.008
    let phi1 := max 0.1 (min (mathPI - 0.1) (s.phi + dy * 0.008))
    { s with theta := theta1, phi := phi1, prevX := x, prevY := y,
             pos := ⟨s.radius * msin phi1 * msin theta1,
                     s.radius * mcos phi1,
                     s.radius * msin phi1 * mcos theta1⟩,
             look := some ⟨0, 0, 0⟩ }
  else s

/-- Handler `onWheel`: clamp the new radius into `[1.2, 8]` and rescale the
camera position to that length. `setLen` interprets
`Vector3.setLength` (which divides by an irrational norm). -/
def onWheel (setLen : Vec3q → ℚ → Vec3q) (deltaY : ℚ) (s : CamState) :
    CamState :=
  let r := max 1.2 (min 8 (s.radius + deltaY * 0.004))
  { s with radius := r, pos := setLen s.pos r }

/-- Dispatch one event to the listener the bootstrap effect registers
for it. -/
def camStep (msin mcos : ℚ → ℚ) (setLen : Vec3q → ℚ → Vec3q)
    (s : CamState) : CamEvent → CamState
  | .mouseDown x y => onMouseDown x y s
  | .mouseUp => onMouseUp s
  | .mouseMove x y => onMouseMove msin mcos x y s
  | .wheel deltaY => onWheel setLen deltaY s

/-- The controller state after bootstrap: not dragging,
`spherical = {theta: 0, phi: PI/2}`, `radius = 2.8`, camera at
`(0, 0, 2.8)`. -/
def camInit : CamState :=
  { isDragging := false, prevX := 0, prevY := 0, theta := 0,
    phi := mathPI / 2, radius := 2.8, pos := ⟨0, 0, 2.8⟩, look := none }

/-- Run a sequence of input events from a starting controller state. -/
def camRun (msin mcos : ℚ → ℚ) (setLen : Vec3q → ℚ → Vec3q)
    (s : CamState) (evs : List CamEvent) : CamState :=
  evs.foldl (camStep msin mcos setLen) s

/-- The whole app state: the load/session state plus the
orbit-controller state. -/
structure AppState where
  session : SessionState
  camera : CamState
deriving DecidableEq, Repr

/-- Function `loadShape` lifted to the whole app state: it reads and writes only
the session component (the source function references no camera
variable). -/
def loadShapeApp (app : AppState) (shapeName : String) (inp : LoadInput)
    (freshId : Nat) : AppState × List Effect :=
  let r := loadShape app.session shapeName inp freshId
  ({ app with session := r.1 }, r.2)

/-- The `disabled` attribute of a shape-selection button: the JSX passes
none, so the button is enabled regardless of the loading flag. -/
def shapeButtonDisabled (_loading : Bool) : Bool := false

/-- The `disabled={loading}` attribute of the reload button. -/
def reloadButtonDisabled (loading : Bool) : Bool := loading

/-- Handler `onClick` of a shape button, `() => { setShape(s); loadShape(s); }`:
update the selection, then invoke `loadShape` for it. -/
def clickShapeButton (app : AppState) (s : String) (inp : LoadInput)
    (freshId : Nat) : AppState × List Effect :=
  let app1 := { app with session := { app.session with shape := s } }
  loadShapeApp app1 s inp freshId

/-- Handler `onClick` of the reload button, `() => loadShape(shape)`, which is
reachable only when not disabled. -/
def clickReloadButton (app : AppState) (inp : LoadInput) (freshId : Nat) :
    AppState × List Effect :=
  loadShapeApp app app.session.shape inp freshId

/-! ### Concrete sample data (used by witnesses and counterexamples) -/

/-- A sample previously-loaded render object. -/
def wObj : RenderObj :=
  { objId := 0
    positions := [1, 2, 3]
    color := "#00e5ff"
    size := 0.012
    transparent := true
    opacity := 0.5 }

/-- A sample stats record. -/
def wSd : StatsData :=
  { point_count := 3
    nearest_neighbor_avg := 1
    centroid := ⟨0, 0, 0⟩
    bbox_dimensions := ⟨1, 1, 1⟩
    variance := ⟨0, 0, 0⟩ }

/-- A second, different stats record. -/
def wSd2 : StatsData := { wSd with point_count := 4 }

/-- A sample session state with a previously loaded cloud and stats. -/
def wSt : SessionState :=
  { shape := "sphere"
    stats := some wSd
    loading := false
    error := none
    sceneObjs := [wObj]
    pointsRef := some wObj }

/-- A sample session state with nothing loaded yet. -/
def wStEmpty : SessionState :=
  { shape := "sphere"
    stats := none
    loading := false
    error := none
    sceneObjs := []
    pointsRef := none }

/-- A zero interpretation of `Math.sin`/`Math.cos` (the camera claims
hold for every interpretation). -/
def zeroFun : ℚ → ℚ := fun _ => 0

/-- A trivial interpretation of `Vector3.setLength`. -/
def idSetLen : Vec3q → ℚ → Vec3q := fun v _ => v

/-- The controller state right after a `mousedown` at `(0, 0)`. -/
def dragState : CamState :=
  camStep zeroFun zeroFun idSetLen camInit (.mouseDown 0 0)

/-- The controller state after that press followed by a `mousemove` to
`(100, 100)`, i.e. a drag of delta `(100, 100)`. -/
def draggedState : CamState :=
  camStep zeroFun zeroFun idSetLen dragState (.mouseMove 100 100)

/-- A sample app state wrapping `wSt`, marked as loading. -/
def wApp : AppState :=
  { session := { wSt with loading := true }, camera := camInit }

/-! ### Branch characterizations of `loadShape` -/

/-- Points fetch fails (rejects or unparsable body): only `error` and
`loading` move; the trace ends in the catch/finally tail. -/
theorem loadShape_points_err (st : SessionState) (n : String)
    (sres : FetchResult StatsData) (fid : Nat) :
    loadShape st n ⟨.err, sres⟩ fid =
      ({ st with loading := false, error := some errorMsg },
       [Effect.setLoading true, Effect.setError none,
        Effect.fetchPoints (urlPoints n),
        Effect.setError (some errorMsg), Effect.setLoading false]) := by
  simp [loadShape, catchFail]

/-- Stats fetch fails: same state as a points failure, but the trace
shows both completed fetch attempts. -/
theorem loadShape_stats_err (st : SessionState) (n : String)
    (body : PointsBody) (fid : Nat) :
    loadShape st n ⟨.ok body, .err⟩ fid =
      ({ st with loading := false, error := some errorMsg },
       [Effect.setLoading true, Effect.setError none,
        Effect.fetchPoints (urlPoints n), Effect.fetchStats (urlStats n),
        Effect.setError (some errorMsg), Effect.setLoading false]) := by
  simp [loadShape, catchFail]

/-- Both bodies parse but the points body is not an array, no previous
cloud: stats are overwritten before `.flatMap` throws. -/
theorem loadShape_nonArray_none (st : SessionState) (n : String)
    (sd : StatsData) (fid : Nat) (h : st.pointsRef = none) :
    loadShape st n ⟨.ok .nonArray, .ok sd⟩ fid =
      ({ st with stats := some sd, loading := false,
                 error := some errorMsg },
       [Effect.setLoading true, Effect.setError none,
        Effect.fetchPoints (urlPoints n), Effect.fetchStats (urlStats n),
        Effect.setStats sd,
        Effect.setError (some errorMsg), Effect.setLoading false]) := by
  simp [loadShape, catchFail, h]

/-- Both bodies parse but the points body is not an array, previous
cloud present: stats are overwritten AND the old object is removed and
disposed before `.flatMap` throws; `pointsRef` still names the removed
object. -/
theorem loadShape_nonArray_some (st : SessionState) (n : String)
    (sd : StatsData) (fid : Nat) (old : RenderObj)
    (h : st.pointsRef = some old) :
    loadShape st n ⟨.ok .nonArray, .ok sd⟩ fid =
      ({ st with stats := some sd, sceneObjs := st.sceneObjs.erase old,
                 loading := false, error := some errorMsg },
       [Effect.setLoading true, Effect.setError none,
        Effect.fetchPoints (urlPoints n), Effect.fetchStats (urlStats n),
        Effect.setStats sd, Effect.removeFromScene old.objId,
        Effect.disposeGeometry old.objId, Effect.disposeMaterial old.objId,
        Effect.setError (some errorMsg), Effect.setLoading false]) := by
  simp [loadShape, catchFail, h]

/-- Full success with no previous cloud. -/
theorem loadShape_success_none (st : SessionState) (n : String)
    (sd : StatsData) (pts : List Point) (fid : Nat)
    (h : st.pointsRef = none) :
    loadShape st n ⟨.ok (.arr pts), .ok sd⟩ fid =
      ({ st with stats := some sd,
                 sceneObjs := st.sceneObjs ++ [newObj fid n pts],
                 pointsRef := some (newObj fid n pts),
                 loading := false, error := none },
       [Effect.setLoading true, Effect.setError none,
        Effect.fetchPoints (urlPoints n), Effect.fetchStats (urlStats n),
        Effect.setStats sd, Effect.constructObj fid,
        Effect.addToScene fid, Effect.setPointsRef fid,
        Effect.setLoading false]) := by
  simp [loadShape, h]

/-- Full success with a previous cloud: it is removed and disposed
before the replacement is constructed, attached and recorded. -/
theorem loadShape_success_some (st : SessionState) (n : String)
    (sd : StatsData) (pts : List Point) (fid : Nat) (old : RenderObj)
    (h : st.pointsRef = some old) :
    loadShape st n ⟨.ok (.arr pts), .ok sd⟩ fid =
      ({ st with stats := some sd,
                 sceneObjs := st.sceneObjs.erase old ++ [newObj fid n pts],
                 pointsRef := some (newObj fid n pts),
                 loading := false, error := none },
       [Effect.setLoading true, Effect.setError none,
        Effect.fetchPoints (urlPoints n), Effect.fetchStats (urlStats n),
        Effect.setStats sd, Effect.removeFromScene old.objId,
        Effect.disposeGeometry old.objId, Effect.disposeMaterial old.objId,
        Effect.constructObj fid, Effect.addToScene fid,
        Effect.setPointsRef fid, Effect.setLoading false]) := by
  simp [loadShape, h]

/-- `loadShape` never changes the `shape` selection state. -/
theorem loadShape_shape (st : SessionState) (n : String) (inp : LoadInput)
    (fid : Nat) : (loadShape st n inp fid).1.shape = st.shape := by
  obtain ⟨pres, sres⟩ := inp
  cases pres with
  | err => simp [loadShape_points_err]
  | ok body =>
    cases sres with
    | err => simp [loadShape_stats_err]
    | ok sd =>
      cases body with
      | nonArray =>
        cases h : st.pointsRef with
        | none => simp [loadShape_nonArray_none st n sd fid h]
        | some old => simp [loadShape_nonArray_some st n sd fid old h]
      | arr pts =>
        cases h : st.pointsRef with
        | none => simp [loadShape_success_none st n sd pts fid h]
        | some old => simp [loadShape_success_some st n sd pts fid old h]

/-- The buffer a cons contributes: three coordinates, then the rest. -/
theorem flattenPoints_cons (p : Point) (ps : List Point) :
    flattenPoints (p :: ps) = p.x :: p.y :: p.z :: flattenPoints ps := by
  simp [flattenPoints]

/-- The flat buffer holds exactly three numbers per point. -/
theorem flattenPoints_length (pts : List Point) :
    (flattenPoints pts).length = 3 * pts.length := by
  induction pts with
  | nil => simp [flattenPoints]
  | cons p ps ih => simp [flattenPoints_cons, ih]; ring

/-- Entries `3i`, `3i+1`, `3i+2` of the flat buffer are the coordinates
of point `i` (stated for every index via optional lookup). -/
theorem flattenPoints_getElem (pts : List Point) (i : Nat) :
    (flattenPoints pts)[3 * i]? = (pts[i]?).map Point.x ∧
    (flattenPoints pts)[3 * i + 1]? = (pts[i]?).map Point.y ∧
    (flattenPoints pts)[3 * i + 2]? = (pts[i]?).map Point.z := by
  induction pts generalizing i with
  | nil => simp [flattenPoints]
  | cons p ps ih =>
    cases i with
    | zero => simp [flattenPoints_cons]
    | succ j =>
      obtain ⟨ih1, ih2, ih3⟩ := ih j
      rw [flattenPoints_cons]
      rw [show 3 * (j + 1) = 3 * j + 1 + 1 + 1 from by ring]
      simp only [List.getElem?_cons_succ]
      exact ⟨ih1, ih2, ih3⟩

/-- Claim C3 — On the success path of `loadShape(name)` the side effects
occur in exactly this order: the loading flag is set, the previous error
is cleared, the points fetch and the stats fetch both complete, the
stats are updated, then — when a previous render object exists — it is
removed from the scene and its geometry and material disposed strictly
before the replacement is constructed, attached to the scene and
recorded as current; finally the loading flag is cleared. -/
theorem loadShape_success_effect_order (st : SessionState) (n : String)
    (sd : StatsData) (pts : List Point) (fid : Nat) :
    (∀ old : RenderObj, st.pointsRef = some old →
      (loadShape st n ⟨.ok (.arr pts), .ok sd⟩ fid).2 =
        [Effect.setLoading true, Effect.setError none,
         Effect.fetchPoints (urlPoints n), Effect.fetchStats (urlStats n),
         Effect.setStats sd, Effect.removeFromScene old.objId,
         Effect.disposeGeometry old.objId,
         Effect.disposeMaterial old.objId, Effect.constructObj fid,
         Effect.addToScene fid, Effect.setPointsRef fid,
         Effect.setLoading false]) ∧
    (st.pointsRef = none →
      (loadShape st n ⟨.ok (.arr pts), .ok sd⟩ fid).2 =
        [Effect.setLoading true, Effect.setError none,
         Effect.fetchPoints (urlPoints n), Effect.fetchStats (urlStats n),
         Effect.setStats sd, Effect.constructObj fid,
         Effect.addToScene fid, Effect.setPointsRef fid,
         Effect.setLoading false]) := by
  constructor
  · intro old h
    simp [loadShape_success_some st n sd pts fid old h]
  · intro h
    simp [loadShape_success_none st n sd pts fid h]

/-- Witness for C3 at a concrete state that has a previous cloud. -/
theorem loadShape_success_effect_order_witness :
    wSt.pointsRef = some wObj ∧
    (loadShape wSt "torus" ⟨.ok (.arr [⟨1, 2, 3⟩]), .ok wSd2⟩ 1).2 =
      [Effect.setLoading true, Effect.setError none,
       Effect.fetchPoints (urlPoints "torus"),
       Effect.fetchStats (urlStats "torus"), Effect.setStats wSd2,
       Effect.removeFromScene wObj.objId,
       Effect.disposeGeometry wObj.objId,
       Effect.disposeMaterial wObj.objId, Effect.constructObj 1,
       Effect.addToScene 1, Effect.setPointsRef 1,
       Effect.setLoading false] :=
  ⟨rfl, (loadShape_success_effect_order wSt "torus" wSd2 [⟨1, 2, 3⟩] 1).1
    wObj rfl⟩

/-- Claim C4 — On every exit path of `loadShape` the loading flag ends
false, the first side effect sets it true, the last clears it, and no
other effect of the call touches it: it is true strictly between
invocation and completion, success or failure. -/
theorem loadShape_loading_flag (st : SessionState) (n : String)
    (inp : LoadInput) (fid : Nat) :
    (loadShape st n inp fid).1.loading = false ∧
    ∃ mid : List Effect,
      (loadShape st n inp fid).2 =
        Effect.setLoading true :: (mid ++ [Effect.setLoading false]) ∧
      ∀ b : Bool, Effect.setLoading b ∉ mid := by
  obtain ⟨pres, sres⟩ := inp
  cases pres with
  | err =>
    refine ⟨by simp [loadShape_points_err],
      [Effect.setError none, Effect.fetchPoints (urlPoints n),
       Effect.setError (some errorMsg)],
      by simp [loadShape_points_err], by simp⟩
  | ok body =>
    cases sres with
    | err =>
      refine ⟨by simp [loadShape_stats_err],
        [Effect.setError none, Effect.fetchPoints (urlPoints n),
         Effect.fetchStats (urlStats n), Effect.setError (some errorMsg)],
        by simp [loadShape_stats_err], by simp⟩
    | ok sd =>
      cases body with
      | nonArray =>
        cases h : st.pointsRef with
        | none =>
          refine ⟨by simp [loadShape_nonArray_none st n sd fid h],
            [Effect.setError none, Effect.fetchPoints (urlPoints n),
             Effect.fetchStats (urlStats n), Effect.setStats sd,
             Effect.setError (some errorMsg)],
            by simp [loadShape_nonArray_none st n sd fid h], by simp⟩
        | some old =>
          refine ⟨by simp [loadShape_nonArray_some st n sd fid old h],
            [Effect.setError none, Effect.fetchPoints (urlPoints n),
             Effect.fetchStats (urlStats n), Effect.setStats sd,
             Effect.removeFromScene old.objId,
             Effect.disposeGeometry old.objId,
             Effect.disposeMaterial old.objId,
             Effect.setError (some errorMsg)],
            by simp [loadShape_nonArray_some st n sd fid old h], by simp⟩
      | arr pts =>
        cases h : st.pointsRef with
        | none =>
          refine ⟨by simp [loadShape_success_none st n sd pts fid h],
            [Effect.setError none, Effect.fetchPoints (urlPoints n),
             Effect.fetchStats (urlStats n), Effect.setStats sd,
             Effect.constructObj fid, Effect.addToScene fid,
             Effect.setPointsRef fid],
            by simp [loadShape_success_none st n sd pts fid h], by simp⟩
        | some old =>
          refine ⟨by simp [loadShape_success_some st n sd pts fid old h],
            [Effect.setError none, Effect.fetchPoints (urlPoints n),
             Effect.fetchStats (urlStats n), Effect.setStats sd,
             Effect.removeFromScene old.objId,
             Effect.disposeGeometry old.objId,
             Effect.disposeMaterial old.objId, Effect.constructObj fid,
             Effect.addToScene fid, Effect.setPointsRef fid],
            by simp [loadShape_success_some st n sd pts fid old h], by simp⟩

/-- Claim C5 — The position buffer built on a successful `loadShape` is
the flat buffer of the fetched points: length `3n`, and entries
`3i`, `3i+1`, `3i+2` are `p_i.x`, `p_i.y`, `p_i.z` — three numbers per
point, in point order. -/
theorem loadShape_position_buffer (st : SessionState) (n : String)
    (sd : StatsData) (pts : List Point) (fid : Nat) :
    ((loadShape st n ⟨.ok (.arr pts), .ok sd⟩ fid).1.pointsRef).map
        RenderObj.positions = some (flattenPoints pts) ∧
    (flattenPoints pts).length = 3 * pts.length ∧
    ∀ i : Nat,
      (flattenPoints pts)[3 * i]? = (pts[i]?).map Point.x ∧
      (flattenPoints pts)[3 * i + 1]? = (pts[i]?).map Point.y ∧
      (flattenPoints pts)[3 * i + 2]? = (pts[i]?).map Point.z := by
  refine ⟨?_, flattenPoints_length pts, fun i => flattenPoints_getElem pts i⟩
  cases h : st.pointsRef with
  | none => simp [loadShape_success_none st n sd pts fid h, newObj]
  | some old => simp [loadShape_success_some st n sd pts fid old h, newObj]

/-- An option known to be `some` has a unique value it equals. -/
theorem lookup_unique {o : Option String} {c : String} (h : o = some c) :
    ∃! x : String, o = some x :=
  ⟨c, h, fun y hy => by rw [h] at hy; exact (Option.some_inj.mp hy).symm⟩

/-- Whatever the fetch results, the first three effects of `loadShape`
are: set loading, clear error, complete the points fetch. -/
theorem loadShape_trace_take3 (st : SessionState) (n : String)
    (inp : LoadInput) (fid : Nat) :
    (loadShape st n inp fid).2.take 3 =
      [Effect.setLoading true, Effect.setError none,
       Effect.fetchPoints (urlPoints n)] := by
  obtain ⟨pres, sres⟩ := inp
  cases pres with
  | err => simp [loadShape_points_err]
  | ok body =>
    cases sres with
    | err => simp [loadShape_stats_err]
    | ok sd =>
      cases body with
      | nonArray =>
        cases h : st.pointsRef with
        | none => simp [loadShape_nonArray_none st n sd fid h]
        | some old => simp [loadShape_nonArray_some st n sd fid old h]
      | arr pts =>
        cases h : st.pointsRef with
        | none => simp [loadShape_success_none st n sd pts fid h]
        | some old => simp [loadShape_success_some st n sd pts fid old h]

/-- When the points body parses, the fourth effect is the completed
stats fetch — regardless of what the bodies contain. -/
theorem loadShape_trace_take4 (st : SessionState) (n : String)
    (body : PointsBody) (sres : FetchResult StatsData) (fid : Nat) :
    (loadShape st n ⟨.ok body, sres⟩ fid).2.take 4 =
      [Effect.setLoading true, Effect.setError none,
       Effect.fetchPoints (urlPoints n),
       Effect.fetchStats (urlStats n)] := by
  cases sres with
  | err => simp [loadShape_stats_err]
  | ok sd =>
    cases body with
    | nonArray =>
      cases h : st.pointsRef with
      | none => simp [loadShape_nonArray_none st n sd fid h]
      | some old => simp [loadShape_nonArray_some st n sd fid old h]
    | arr pts =>
      cases h : st.pointsRef with
      | none => simp [loadShape_success_none st n sd pts fid h]
      | some old => simp [loadShape_success_some st n sd pts fid old h]

/-- Claim C6 — Each of the seven enumerated names has exactly one color in
the shape→color table; the material color of the object a successful
load builds is exactly the table color of the requested name; a name
with no table entry gets white. -/
theorem shape_color_mapping :
    (∀ n, n ∈ SHAPES → ∃! c : String, colorsLookup n = some c) ∧
    (∀ (st : SessionState) (n : String) (sd : StatsData)
       (pts : List Point) (fid : Nat),
       ((loadShape st n ⟨.ok (.arr pts), .ok sd⟩ fid).1.pointsRef).map
         RenderObj.color = some (colorFor n)) ∧
    (∀ n, colorsLookup n = none → colorFor n = "#ffffff") := by
  refine ⟨?_, ?_, ?_⟩
  · intro n hn
    simp only [SHAPES, List.mem_cons, List.not_mem_nil, or_false] at hn
    rcases hn with rfl | rfl | rfl | rfl | rfl | rfl | rfl
    · exact lookup_unique (show colorsLookup "sphere" = some "#00e5ff" by
        simp [colorsLookup, COLORS, List.lookup])
    · exact lookup_unique (show colorsLookup "torus" = some "#ff6b6b" by
        simp [colorsLookup, COLORS, List.lookup])
    · exact lookup_unique (show colorsLookup "plane" = some "#69ff47" by
        simp [colorsLookup, COLORS, List.lookup])
    · exact lookup_unique (show colorsLookup "helix" = some "#ffd600" by
        simp [colorsLookup, COLORS, List.lookup])
    · exact lookup_unique (show colorsLookup "cylinder" = some "#ff3d00" by
        simp [colorsLookup, COLORS, List.lookup])
    · exact lookup_unique (show colorsLookup "cube" = some "#40c4ff" by
        simp [colorsLookup, COLORS, List.lookup])
    · exact lookup_unique (show colorsLookup "octahedron" = some "#7c4dff"
        by simp [colorsLookup, COLORS, List.lookup])
  · intro st n sd pts fid
    cases h : st.pointsRef with
    | none => simp [loadShape_success_none st n sd pts fid h, newObj]
    | some old => simp [loadShape_success_some st n sd pts fid old h, newObj]
  · intro n h
    simp [colorFor, h]

/-- Witness for C6: `sphere` is enumerated and uniquely colored;
`unknown` has no entry and falls back to white. -/
theorem shape_color_mapping_witness :
    ("sphere" ∈ SHAPES ∧ ∃! c : String, colorsLookup "sphere" = some c) ∧
    (colorsLookup "unknown" = none ∧ colorFor "unknown" = "#ffffff") := by
  have hmem : "sphere" ∈ SHAPES := by simp [SHAPES]
  have hnone : colorsLookup "unknown" = none := by
    simp [colorsLookup, COLORS, List.lookup]
  exact ⟨⟨hmem, shape_color_mapping.1 "sphere" hmem⟩,
    ⟨hnone, shape_color_mapping.2.2 "unknown" hnone⟩⟩

/-- Claim C8 — `loadShape` (success or failure) leaves the whole camera
component of the app state untouched, and the non-orbit input handlers
(`mousedown`, `mouseup`) never move azimuth, polar angle, radius or
camera position: orbit state is mutated only by the drag-move and wheel
handlers and persists across shape reloads. -/
theorem camera_persists_across_loads :
    (∀ (app : AppState) (n : String) (inp : LoadInput) (fid : Nat),
       (loadShapeApp app n inp fid).1.camera = app.camera) ∧
    (∀ (x y : ℚ) (s : CamState),
       (onMouseDown x y s).theta = s.theta ∧
       (onMouseDown x y s).phi = s.phi ∧
       (onMouseDown x y s).radius = s.radius ∧
       (onMouseDown x y s).pos = s.pos) ∧
    (∀ s : CamState,
       (onMouseUp s).theta = s.theta ∧ (onMouseUp s).phi = s.phi ∧
       (onMouseUp s).radius = s.radius ∧ (onMouseUp s).pos = s.pos) :=
  ⟨fun _ _ _ _ => rfl, fun _ _ _ => ⟨rfl, rfl, rfl, rfl⟩,
   fun _ => ⟨rfl, rfl, rfl, rfl⟩⟩

/-- Claim C9 — The shape buttons carry no `disabled` attribute, so they
stay enabled while loading; only the reload button is guarded by the
loading flag; pressing a shape button while a load is in flight updates
the selection and immediately starts a new `loadShape` invocation
(loading set, error cleared, points fetch issued). -/
theorem shape_buttons_bypass_loading_guard :
    (∀ b : Bool, shapeButtonDisabled b = false) ∧
    (∀ b : Bool, reloadButtonDisabled b = b) ∧
    (∀ (app : AppState) (s : String) (inp : LoadInput) (fid : Nat),
       app.session.loading = true →
       (clickShapeButton app s inp fid).1.session.shape = s ∧
       (clickShapeButton app s inp fid).2.take 3 =
         [Effect.setLoading true, Effect.setError none,
          Effect.fetchPoints (urlPoints s)]) := by
  refine ⟨fun _ => rfl, fun _ => rfl, ?_⟩
  intro app s inp fid _h
  constructor
  · simp [clickShapeButton, loadShapeApp, loadShape_shape]
  · simpa [clickShapeButton, loadShapeApp] using
      loadShape_trace_take3 { app.session with shape := s } s inp fid

/-- Witness for C9 at a state whose loading flag is raised. -/
theorem shape_buttons_bypass_loading_guard_witness :
    wApp.session.loading = true ∧
    ((clickShapeButton wApp "cube" ⟨.err, .err⟩ 5).1.session.shape =
        "cube" ∧
     (clickShapeButton wApp "cube" ⟨.err, .err⟩ 5).2.take 3 =
       [Effect.setLoading true, Effect.setError none,
        Effect.fetchPoints (urlPoints "cube")]) :=
  ⟨rfl, shape_buttons_bypass_loading_guard.2.2 wApp "cube" ⟨.err, .err⟩ 5
    rfl⟩

/-- Claim C10 — `loadShape` never inspects its argument before fetching:
for every string name (enumerated or not) it first sets loading, clears
the error and issues `shapes/{name}.points.json`, then (whenever the
points body parses) `shapes/{name}.stats.json`; a name outside the color
table yields a white material. -/
theorem loadShape_no_name_validation (st : SessionState) (n : String)
    (inp : LoadInput) (fid : Nat) :
    (loadShape st n inp fid).2.take 3 =
      [Effect.setLoading true, Effect.setError none,
       Effect.fetchPoints ("shapes/" ++ n ++ ".points.json")] ∧
    (∀ (body : PointsBody) (sres : FetchResult StatsData),
      (loadShape st n ⟨.ok body, sres⟩ fid).2.take 4 =
        [Effect.setLoading true, Effect.setError none,
         Effect.fetchPoints ("shapes/" ++ n ++ ".points.json"),
         Effect.fetchStats ("shapes/" ++ n ++ ".stats.json")]) ∧
    (colorsLookup n = none →
      ∀ (sd : StatsData) (pts : List Point),
        ((loadShape st n ⟨.ok (.arr pts), .ok sd⟩ fid).1.pointsRef).map
          RenderObj.color = some "#ffffff") := by
  refine ⟨loadShape_trace_take3 st n inp fid,
    fun body sres => loadShape_trace_take4 st n body sres fid, ?_⟩
  intro h sd pts
  have hc : colorFor n = "#ffffff" := by simp [colorFor, h]
  cases hp : st.pointsRef with
  | none => simp [loadShape_success_none st n sd pts fid hp, newObj, hc]
  | some old => simp [loadShape_success_some st n sd pts fid old hp, newObj, hc]

/-- Witness for C10 at the unmapped name `nosuch`. -/
theorem loadShape_no_name_validation_witness :
    colorsLookup "nosuch" = none ∧
    ((loadShape wSt "nosuch" ⟨.ok (.arr [⟨1, 2, 3⟩]), .ok wSd⟩ 2).1.pointsRef).map
      RenderObj.color = some "#ffffff" := by
  have h : colorsLookup "nosuch" = none := by
    simp [colorsLookup, COLORS, List.lookup]
  exact ⟨h, (loadShape_no_name_validation wSt "nosuch"
    ⟨.ok (.arr [⟨1, 2, 3⟩]), .ok wSd⟩ 2).2.2 h wSd [⟨1, 2, 3⟩]⟩

/-- Claim C1, counterexample — A failing invocation that does NOT leave
stats and the attached cloud untouched: the points resource answers with
a JSON body that is not an array (e.g. a 404 whose body is a JSON error
object) while the stats resource parses.  `loadShape` then sets the
backend error message, yet the session stats were already overwritten
with the fetched stats body and the previously attached render object
was already removed from the scene (and its resources disposed). -/
theorem loadShape_failure_invariant_counterexample :
    (loadShape wSt "sphere" ⟨.ok .nonArray, .ok wSd2⟩ 1).1.error =
      some errorMsg ∧
    (loadShape wSt "sphere" ⟨.ok .nonArray, .ok wSd2⟩ 1).1.stats ≠
      wSt.stats ∧
    (loadShape wSt "sphere" ⟨.ok .nonArray, .ok wSd2⟩ 1).1.sceneObjs ≠
      wSt.sceneObjs := by
  have h := loadShape_nonArray_some wSt "sphere" wSd2 1 wObj rfl
  rw [Prod.ext_iff] at h
  refine ⟨?_, ?_, ?_⟩
  · rw [h.1]
  · rw [h.1]
    simp [wSt, wSd, wSd2]
  · rw [h.1]
    simp [wSt, List.erase_cons_head]

/-- Claim C1, amended — When `loadShape` fails because either fetch
rejects or either body is not valid JSON (the only failures possible
before both bodies parse), session stats, the scene and `pointsRef` are
exactly as before and only the error field (set to the fixed backend
message) and the loading flag change.  But when both bodies parse and
the points body is not an array, the late `.flatMap` failure leaves the
stats overwritten and the previous render object removed and disposed,
with `pointsRef` still naming it. -/
theorem loadShape_failure_invariant (st : SessionState) (n : String)
    (inp : LoadInput) (fid : Nat) :
    (inp.pointsRes = .err ∨ inp.statsRes = .err →
      (loadShape st n inp fid).1 =
        { st with error := some errorMsg, loading := false }) ∧
    (∀ (sd : StatsData) (old : RenderObj), st.pointsRef = some old →
      (loadShape st n ⟨.ok .nonArray, .ok sd⟩ fid).1 =
        { st with stats := some sd,
                  sceneObjs := st.sceneObjs.erase old,
                  error := some errorMsg, loading := false }) := by
  constructor
  · intro h
    obtain ⟨pres, sres⟩ := inp
    cases pres with
    | err => simp [loadShape_points_err]
    | ok body =>
      cases sres with
      | err => simp [loadShape_stats_err]
      | ok sd => simp at h
  · intro sd old h
    simp [loadShape_nonArray_some st n sd fid old h]

/-- Witness for the amended C1: an early failure (points fetch rejects)
leaves everything but error/loading unchanged; the late `nonArray`
failure at `wSt` hits the second clause. -/
theorem loadShape_failure_invariant_witness :
    ((⟨.err, .ok wSd2⟩ : LoadInput).pointsRes = .err ∨
      (⟨.err, .ok wSd2⟩ : LoadInput).statsRes = .err) ∧
    (loadShape wSt "sphere" ⟨.err, .ok wSd2⟩ 1).1 =
      { wSt with error := some errorMsg, loading := false } ∧
    wSt.pointsRef = some wObj ∧
    (loadShape wSt "sphere" ⟨.ok .nonArray, .ok wSd2⟩ 1).1 =
      { wSt with stats := some wSd2,
                 sceneObjs := wSt.sceneObjs.erase wObj,
                 error := some errorMsg, loading := false } :=
  ⟨Or.inl rfl,
   (loadShape_failure_invariant wSt "sphere" ⟨.err, .ok wSd2⟩ 1).1
     (Or.inl rfl),
   rfl,
   (loadShape_failure_invariant wSt "sphere" ⟨.ok .nonArray, .ok wSd2⟩
     1).2 wSd2 wObj rfl⟩

/-- The clamping invariant maintained by every input handler: the polar
angle stays in the closed band `[0.1, PI - 0.1]` and the radius in
`[1.2, 8]`. -/
def camInv (s : CamState) : Prop :=
  0.1 ≤ s.phi ∧ s.phi ≤ mathPI - 0.1 ∧ 1.2 ≤ s.radius ∧ s.radius ≤ 8

/-- The bootstrap state satisfies the clamping invariant. -/
theorem camInit_inv : camInv camInit := by
  refine ⟨?_, ?_, ?_, ?_⟩ <;> norm_num [camInit, mathPI]

/-- Every single input event preserves the clamping invariant. -/
theorem camStep_inv (msin mcos : ℚ → ℚ) (setLen : Vec3q → ℚ → Vec3q)
    (s : CamState) (e : CamEvent) (h : camInv s) :
    camInv (camStep msin mcos setLen s e) := by
  obtain ⟨h1, h2, h3, h4⟩ := h
  cases e with
  | mouseDown x y => exact ⟨h1, h2, h3, h4⟩
  | mouseUp => exact ⟨h1, h2, h3, h4⟩
  | mouseMove x y =>
    by_cases hd : s.isDragging = true
    · simp only [camStep, onMouseMove, hd, if_true]
      exact ⟨le_max_left _ _,
        max_le (by norm_num [mathPI]) (min_le_left _ _), h3, h4⟩
    · simp only [camStep, onMouseMove, hd, if_false]
      exact ⟨h1, h2, h3, h4⟩
  | wheel deltaY =>
    exact ⟨h1, h2, le_max_left _ _,
      max_le (by norm_num) (min_le_left _ _)⟩

/-- Any event sequence from an invariant state stays invariant. -/
theorem camRun_inv (msin mcos : ℚ → ℚ) (setLen : Vec3q → ℚ → Vec3q)
    (s : CamState) (evs : List CamEvent) (h : camInv s) :
    camInv (camRun msin mcos setLen s evs) := by
  induction evs generalizing s with
  | nil => exact h
  | cons e t ih => exact ih _ (camStep_inv msin mcos setLen s e h)

/-- Claim C2 — For a fixed positive `ε` (here `1/20`, below the code's
clamp margin `0.1`), after ANY sequence of input events — in particular
any sequence of drag moves and any sequence of wheel events — the polar
angle stays strictly inside `(ε, PI − ε)` and the radius stays inside
the closed band `[1.2, 8]` (the code's `minRadius`/`maxRadius`).  This
holds for every interpretation of `Math.sin`/`Math.cos`/`setLength`. -/
theorem camera_clamp_invariant :
    ∃ ε : ℚ, 0 < ε ∧
      ∀ (msin mcos : ℚ → ℚ) (setLen : Vec3q → ℚ → Vec3q)
        (evs : List CamEvent),
        (ε < (camRun msin mcos setLen camInit evs).phi ∧
         (camRun msin mcos setLen camInit evs).phi < mathPI - ε) ∧
        ((1.2 : ℚ) ≤ (camRun msin mcos setLen camInit evs).radius ∧
         (camRun msin mcos setLen camInit evs).radius ≤ 8) := by
  refine ⟨1 / 20, by norm_num, ?_⟩
  intro msin mcos setLen evs
  obtain ⟨h1, h2, h3, h4⟩ := camRun_inv msin mcos setLen camInit evs
    camInit_inv
  refine ⟨⟨lt_of_lt_of_le (by norm_num) h1,
    lt_of_le_of_lt h2 (sub_lt_sub_left (by norm_num) mathPI)⟩, h3, h4⟩

/-- Claim C7, counterexample — Dragging from `(0,0)` to `(100,100)` gives
equal deltas `dx = dy = 100`, yet the azimuth changes by `-0.8` while
the polar angle changes by `+0.8`: the code scales `dx` by `-0.008` for
the azimuth but `dy` by `+0.008` for the polar angle, so no single
sensitivity constant `c` satisfies both "azimuth changes by `c·dx`" and
"polar angle changes by `c·dy`" as the claim states. -/
theorem drag_move_update_counterexample :
    draggedState.theta - dragState.theta = -(4 / 5) ∧
    draggedState.phi - dragState.phi = 4 / 5 ∧
    draggedState.theta - dragState.theta ≠
      draggedState.phi - dragState.phi := by
  refine ⟨?_, ?_, ?_⟩ <;>
    simp [draggedState, dragState, camStep, onMouseDown, onMouseMove,
          camInit, max_def, min_def, mathPI] <;>
    norm_num

/-- Claim C7, amended — While dragging, a pointer move to `(x, y)` with
delta `(dx, dy)` from the previous pointer position changes the azimuth
by `-0.008·dx` and the polar angle by `+0.008·dy` (the same sensitivity
magnitude, opposite orientations), the polar angle being clamped to the
closed band `[0.1, PI - 0.1]`; the camera position becomes the point at
the current radius and the updated azimuth/polar angle on the sphere
around the origin, and the camera is re-aimed at the origin; the radius
is untouched and the previous pointer position is updated. -/
theorem drag_move_update (msin mcos : ℚ → ℚ)
    (setLen : Vec3q → ℚ → Vec3q) (s : CamState) (x y : ℚ)
    (h : s.isDragging = true) :
    (camStep msin mcos setLen s (.mouseMove x y)).theta =
      s.theta - 0.008 * (x - s.prevX) ∧
    (camStep msin mcos setLen s (.mouseMove x y)).phi =
      max 0.1 (min (mathPI - 0.1) (s.phi + 0.008 * (y - s.prevY))) ∧
    (camStep msin mcos setLen s (.mouseMove x y)).pos =
      ⟨s.radius * msin (camStep msin mcos setLen s (.mouseMove x y)).phi *
         msin (camStep msin mcos setLen s (.mouseMove x y)).theta,
       s.radius * mcos (camStep msin mcos setLen s (.mouseMove x y)).phi,
       s.radius * msin (camStep msin mcos setLen s (.mouseMove x y)).phi *
         mcos (camStep msin mcos setLen s (.mouseMove x y)).theta⟩ ∧
    (camStep msin mcos setLen s (.mouseMove x y)).look = some ⟨0, 0, 0⟩ ∧
    (camStep msin mcos setLen s (.mouseMove x y)).radius = s.radius ∧
    (camStep msin mcos setLen s (.mouseMove x y)).prevX = x ∧
    (camStep msin mcos setLen s (.mouseMove x y)).prevY = y := by
  refine ⟨?_, ?_, ?_, ?_, ?_, ?_, ?_⟩ <;>
    (try simp only [camStep, onMouseMove, h, if_true]) <;>
    (first
      | rfl
      | ring_nf)

/-- Witness for the amended C7 at the concrete dragging state
`dragState` and pointer position `(100, 100)`. -/
theorem drag_move_update_witness :
    dragState.isDragging = true ∧
    ((camStep zeroFun zeroFun idSetLen dragState (.mouseMove 100 100)).theta =
       dragState.theta - 0.008 * (100 - dragState.prevX) ∧
     (camStep zeroFun zeroFun idSetLen dragState (.mouseMove 100 100)).phi =
       max 0.1 (min (mathPI - 0.1)
         (dragState.phi + 0.008 * (100 - dragState.prevY))) ∧
     (camStep zeroFun zeroFun idSetLen dragState (.mouseMove 100 100)).pos =
       ⟨dragState.radius *
          zeroFun (camStep zeroFun zeroFun idSetLen dragState
            (.mouseMove 100 100)).phi *
          zeroFun (camStep zeroFun zeroFun idSetLen dragState
            (.mouseMove 100 100)).theta,
        dragState.radius *
          zeroFun (camStep zeroFun zeroFun idSetLen dragState
            (.mouseMove 100 100)).phi,
        dragState.radius *
          zeroFun (camStep zeroFun zeroFun idSetLen dragState
            (.mouseMove 100 100)).phi *
          zeroFun (camStep zeroFun zeroFun idSetLen dragState
            (.mouseMove 100 100)).theta⟩ ∧
     (camStep zeroFun zeroFun idSetLen dragState
        (.mouseMove 100 100)).look = some ⟨0, 0, 0⟩ ∧
     (camStep zeroFun zeroFun idSetLen dragState
        (.mouseMove 100 100)).radius = dragState.radius ∧
     (camStep zeroFun zeroFun idSetLen dragState
        (.mouseMove 100 100)).prevX = 100 ∧
     (camStep zeroFun zeroFun idSetLen dragState
        (.mouseMove 100 100)).prevY = 100) :=
  ⟨rfl, drag_move_update zeroFun zeroFun idSetLen dragState 100 100 rfl⟩
